import Mathlib

/-!
Shallow embedding of the SakuraLingo backend's lesson-aggregation core
(`SakuraLingo/models.py` and `SakuraLingo/views.py`).

Records mirror the Django models; the persistent store is a `DB` record of
lists.  Ids are `Nat`, autoincrement is modelled by `nextId` (1 + maximum of
the existing ids).  Each view method becomes a function from the store (and
the authenticated user / request payload) to a `ViewResult` and the new
store; an uncaught database `IntegrityError` is a distinct outcome.
-/

structure User where
  id : Nat
  is_teacher : Bool
deriving DecidableEq

structure ExerciseFreetext where
  id : Nat
  question : String
  answer : String
  jlpt_level : Nat
deriving DecidableEq

structure ExerciseMultiChoice where
  id : Nat
  question : String
  jlpt_level : Nat
deriving DecidableEq

structure ExerciseMultiChoiceOptions where
  id : Nat
  exercise_mc : Nat
  answer : String
  is_correct : Bool
deriving DecidableEq

structure ExerciseMatch where
  id : Nat
  jlpt_level : Nat
deriving DecidableEq

structure ExerciseMatchOptions where
  id : Nat
  exercise_match : Nat
  kanji : String
  answer : String
deriving DecidableEq

structure Lesson where
  id : Nat
  teacher : Nat
  name : String
  lesson_type : String
  jlpt_level : String
  exercise_count : Nat
deriving DecidableEq

structure LessonsExercises where
  id : Nat
  lesson : Nat
  exercise_id : Nat
  exercise_type : String
deriving DecidableEq

structure DB where
  exerciseFreetext : List ExerciseFreetext
  exerciseMultiChoice : List ExerciseMultiChoice
  exerciseMultiChoiceOptions : List ExerciseMultiChoiceOptions
  exerciseMatch : List ExerciseMatch
  exerciseMatchOptions : List ExerciseMatchOptions
  lessons : List Lesson
  lessonsExercises : List LessonsExercises
deriving DecidableEq

/-- Outcome of a view call: an HTTP response with a status code, or an
uncaught database integrity error propagating out of the view. -/
inductive ViewResult where
  | response (status : Nat)
  | integrityError
deriving DecidableEq

/-- Autoincrement primary key: one more than the largest id in use. -/
def nextId (ids : List Nat) : Nat :=
  ids.foldl Nat.max 0 + 1

/-- `Lesson.objects.get` style lookup of a lesson row. -/
def getLesson (db : DB) (lessonId : Nat) : Option Lesson :=
  db.lessons.find? (fun l => l.id == lessonId)

/-- The `LessonsExercises` rows of one lesson
(`LessonsExercises.objects.filter(lesson=self)`). -/
def lessonRows (db : DB) (lessonId : Nat) : List LessonsExercises :=
  db.lessonsExercises.filter (fun le => le.lesson == lessonId)

/-- The `try:`-block of `Lesson.update_lesson_stats`: look the referenced
exercise up in the store named by `exercise_type` and return its
`jlpt_level`; `none` when the lookup raises (`except: continue`) or the
type string names no store. -/
def resolveLevel (db : DB) (le : LessonsExercises) : Option Nat :=
  if le.exercise_type == "freetext" then
    (db.exerciseFreetext.find? (fun e => e.id == le.exercise_id)).map
      (fun e => e.jlpt_level)
  else if le.exercise_type == "multi-choice" then
    (db.exerciseMultiChoice.find? (fun e => e.id == le.exercise_id)).map
      (fun e => e.jlpt_level)
  else if le.exercise_type == "pair-match" then
    (db.exerciseMatch.find? (fun e => e.id == le.exercise_id)).map
      (fun e => e.jlpt_level)
  else
    none

/-- Python's `min` over the collected levels. -/
def minList : List Nat → Nat
  | [] => 0
  | x :: xs => xs.foldl Nat.min x

/-- Python's `max` over the collected levels. -/
def maxList : List Nat → Nat
  | [] => 0
  | x :: xs => xs.foldl Nat.max x

/-- The jlpt_level string `Lesson.update_lesson_stats` derives from the
collected levels: `unknown` when none, `str(min)` when `min == max`,
`"min-max"` otherwise. -/
def jlptString (levels : List Nat) : String :=
  if levels.isEmpty then "unknown"
  else
    let mn := minList levels
    let mx := maxList levels
    if mn == mx then toString mn
    else toString mn ++ "-" ++ toString mx

/-- Write the three derived fields of one lesson row (`self.save()` at the
end of `update_lesson_stats`). -/
def setLessonStats (db : DB) (lessonId : Nat) (ltype jl : String) (cnt : Nat) :
    DB :=
  { db with
    lessons := db.lessons.map (fun l =>
      if l.id == lessonId then
        { l with lesson_type := ltype, jlpt_level := jl, exercise_count := cnt }
      else l) }

/-- `Lesson.update_lesson_stats` (models.py): empty association set is the
`empty`/`unknown`/0 early return; otherwise the exercise count is the row
count, every row's `exercise_type` enters the type set (before resolution
is attempted), and only resolvable rows contribute a jlpt level. -/
def update_lesson_stats (db : DB) (lessonId : Nat) : DB :=
  let rows := lessonRows db lessonId
  if rows.isEmpty then
    setLessonStats db lessonId "empty" "unknown" 0
  else
    let types := (rows.map (fun le => le.exercise_type)).dedup
    let levels := rows.filterMap (resolveLevel db)
    let ltype :=
      match types with
      | [t] => t
      | _ => "mixed"
    setLessonStats db lessonId ltype (jlptString levels) rows.length

/-- Write only `exercise_count` of one lesson row, leaving the other fields
as they currently stand (`lesson.exercise_count = ...; lesson.save()` in
`LessonExercisesView`). -/
def setLessonCount (db : DB) (lessonId : Nat) (cnt : Nat) : DB :=
  { db with
    lessons := db.lessons.map (fun l =>
      if l.id == lessonId then { l with exercise_count := cnt } else l) }

/-- `ExerciseFreetextDetailView.delete` (views.py): teacher check, 404 when
the exercise is absent, otherwise `exercise.delete()` — the freetext row
alone is removed; nothing touches `LessonsExercises` or the lessons. -/
def exerciseFreetextDetailDelete (db : DB) (user : User) (pk : Nat) :
    ViewResult × DB :=
  if !user.is_teacher then (ViewResult.response 403, db)
  else
    match db.exerciseFreetext.find? (fun e => e.id == pk) with
    | none => (ViewResult.response 404, db)
    | some _ =>
      (ViewResult.response 204,
       { db with
         exerciseFreetext := db.exerciseFreetext.filter (fun e => e.id != pk) })

/-- `ExerciseMatchListCreateView.delete` (views.py): remove the match's
option rows and the match row itself; `LessonsExercises` is untouched. -/
def exerciseMatchDelete (db : DB) (match_id : Nat) : ViewResult × DB :=
  match db.exerciseMatch.find? (fun m => m.id == match_id) with
  | none => (ViewResult.response 404, db)
  | some _ =>
    (ViewResult.response 204,
     { db with
       exerciseMatchOptions :=
         db.exerciseMatchOptions.filter (fun o => o.exercise_match != match_id),
       exerciseMatch := db.exerciseMatch.filter (fun m => m.id != match_id) })

/-- Ids of the library-pair containers: `ExerciseMatch` rows annotated with
`pair_count` and filtered to `pair_count == 1` (`PairLibraryView.post`). -/
def libraryExerciseIds (db : DB) : List Nat :=
  (db.exerciseMatch.filter (fun m =>
    (db.exerciseMatchOptions.filter (fun o => o.exercise_match == m.id)).length
      == 1)).map (fun m => m.id)

/-- Case folding used for the ORM's case-insensitive `iexact` matches. -/
def strLower (s : String) : String :=
  ⟨s.data.map Char.toLower⟩

/-- The duplicate test `PairLibraryView.post` runs: some option row owned by
a library container matches the submitted kanji and answer in the same
direction, case-insensitively (`kanji__iexact=kanji, answer__iexact=answer`). -/
def libraryDupExists (db : DB) (kanji answer : String) : Bool :=
  db.exerciseMatchOptions.any (fun o =>
    (libraryExerciseIds db).contains o.exercise_match
      && strLower o.kanji == strLower kanji
      && strLower o.answer == strLower answer)

/-- `PairLibraryView.post` (views.py): teacher check, required-field check
(`request.data.get` yields a falsy value for a missing or empty string),
the same-direction duplicate check among library pairs, then creation of a
fresh single-pair `ExerciseMatch` container holding the new pair. -/
def pairLibraryPost (db : DB) (user : User) (kanji answer : String)
    (jlpt_level : Nat) : ViewResult × DB :=
  if !user.is_teacher then (ViewResult.response 403, db)
  else if kanji == "" || answer == "" then (ViewResult.response 400, db)
  else if libraryDupExists db kanji answer then (ViewResult.response 400, db)
  else
    let exId := nextId (db.exerciseMatch.map (fun m => m.id))
    let pairId := nextId (db.exerciseMatchOptions.map (fun o => o.id))
    (ViewResult.response 201,
     { db with
       exerciseMatch := db.exerciseMatch ++ [⟨exId, jlpt_level⟩],
       exerciseMatchOptions :=
         db.exerciseMatchOptions ++ [⟨pairId, exId, kanji, answer⟩] })

/-- The pair-saving loop of `ExerciseMatchListCreateView.post`: each pair is
`(kanji, answer)`; a pair with a missing member deletes the already-created
exercise container (cascading to its option rows) and returns 400. -/
def saveMatchPairs (db : DB) (exId : Nat) :
    List (String × String) → ViewResult × DB
  | [] => (ViewResult.response 201, db)
  | (k, a) :: rest =>
    if k == "" || a == "" then
      (ViewResult.response 400,
       { db with
         exerciseMatch := db.exerciseMatch.filter (fun m => m.id != exId),
         exerciseMatchOptions :=
           db.exerciseMatchOptions.filter (fun o => o.exercise_match != exId) })
    else
      saveMatchPairs
        { db with
          exerciseMatchOptions :=
            db.exerciseMatchOptions
              ++ [⟨nextId (db.exerciseMatchOptions.map (fun o => o.id)),
                   exId, k, a⟩] }
        exId rest

/-- `ExerciseMatchListCreateView.post` (views.py): direct creation of a
matching exercise.  Fewer than two submitted pairs is rejected; otherwise
the container is created first and the pairs are saved one by one.  No
duplicate check of any kind is performed. -/
def exerciseMatchPost (db : DB) (jlpt_level : Nat)
    (pairs : List (String × String)) : ViewResult × DB :=
  if pairs.length < 2 then (ViewResult.response 400, db)
  else
    let exId := nextId (db.exerciseMatch.map (fun m => m.id))
    saveMatchPairs
      { db with exerciseMatch := db.exerciseMatch ++ [⟨exId, jlpt_level⟩] }
      exId pairs

/-- One option of a submitted multi-choice question; an absent or blank
`answer` makes the option serializer invalid. -/
structure MCOptionInput where
  answer : String
  is_correct : Bool
deriving DecidableEq

/-- `question.delete()` on an `ExerciseMultiChoice`: Django cascades the
delete to the question's option rows. -/
def deleteQuestionCascade (db : DB) (qid : Nat) : DB :=
  { db with
    exerciseMultiChoice :=
      db.exerciseMultiChoice.filter (fun q => q.id != qid),
    exerciseMultiChoiceOptions :=
      db.exerciseMultiChoiceOptions.filter (fun o => o.exercise_mc != qid) }

/-- The option-saving loop of `ExerciseMultiChoiceView.post`: an invalid
option deletes the already-saved question (cascading to the options saved
so far) and returns the validation error. -/
def saveMCOptions (db : DB) (qid : Nat) :
    List MCOptionInput → ViewResult × DB
  | [] => (ViewResult.response 201, db)
  | o :: rest =>
    if o.answer == "" then
      (ViewResult.response 400, deleteQuestionCascade db qid)
    else
      saveMCOptions
        { db with
          exerciseMultiChoiceOptions :=
            db.exerciseMultiChoiceOptions
              ++ [⟨nextId (db.exerciseMultiChoiceOptions.map (fun x => x.id)),
                   qid, o.answer, o.is_correct⟩] }
        qid rest

/-- `ExerciseMultiChoiceView.post` (views.py): question serializer
validation, the non-empty-options check, the at-least-one-correct check
(all three reject before the question row is written), then the question is
saved and the options are saved one by one. -/
def exerciseMultiChoicePost (db : DB) (question : String)
    (jlpt_level : Option Nat) (options : List MCOptionInput) :
    ViewResult × DB :=
  if question == "" || jlpt_level.isNone then (ViewResult.response 400, db)
  else if options.isEmpty then (ViewResult.response 400, db)
  else if !options.any (fun o => o.is_correct) then (ViewResult.response 400, db)
  else
    let qid := nextId (db.exerciseMultiChoice.map (fun q => q.id))
    saveMCOptions
      { db with
        exerciseMultiChoice :=
          db.exerciseMultiChoice ++ [⟨qid, question, jlpt_level.getD 0⟩] }
      qid options

/-- Does the lesson already hold the `(lesson, exercise_id, exercise_type)`
triple?  This is the `unique_together` constraint of `LessonsExercises`. -/
def tripleExists (db : DB) (lessonId eid : Nat) (etype : String) : Bool :=
  db.lessonsExercises.any (fun le =>
    le.lesson == lessonId && le.exercise_id == eid && le.exercise_type == etype)

/-- The creation loop of `LessonExercisesView.post`: each entry is created
with `LessonsExercises.objects.create`; a violated unique constraint raises
an uncaught `IntegrityError` (rows created earlier stay committed); each
successful create runs the model's `save` hook, which calls
`update_lesson_stats`.  After the loop the view stores the row count in
`exercise_count` and saves the lesson. -/
def insertLessonExercises (db : DB) (lessonId : Nat) :
    List (Nat × String) → ViewResult × DB
  | [] =>
    (ViewResult.response 201,
     setLessonCount db lessonId (lessonRows db lessonId).length)
  | (eid, etype) :: rest =>
    if tripleExists db lessonId eid etype then (ViewResult.integrityError, db)
    else
      let rowId := nextId (db.lessonsExercises.map (fun le => le.id))
      let db1 :=
        { db with
          lessonsExercises :=
            db.lessonsExercises ++ [⟨rowId, lessonId, eid, etype⟩] }
      insertLessonExercises (update_lesson_stats db1 lessonId) lessonId rest

/-- `LessonExercisesView.post` (views.py): teacher check, lesson lookup,
ownership check, then the creation loop.  No lookup of the referenced
exercise in any exercise store happens anywhere on this path. -/
def lessonExercisesPost (db : DB) (user : User) (lessonId : Nat)
    (entries : List (Nat × String)) : ViewResult × DB :=
  if !user.is_teacher then (ViewResult.response 403, db)
  else
    match getLesson db lessonId with
    | none => (ViewResult.response 404, db)
    | some lesson =>
      if lesson.teacher != user.id then (ViewResult.response 403, db)
      else insertLessonExercises db lessonId entries

/-- `LessonExercisesView.delete` (views.py): teacher check, lesson lookup,
ownership check; with an association-row id present, that row is fetched
(404 when absent) and deleted — the model's `delete` hook then calls
`update_lesson_stats` — and in every successful case the view finally
stores the row count in `exercise_count` and saves the lesson. -/
def lessonExercisesDelete (db : DB) (user : User) (lessonId : Nat)
    (assocId : Option Nat) : ViewResult × DB :=
  if !user.is_teacher then (ViewResult.response 403, db)
  else
    match getLesson db lessonId with
    | none => (ViewResult.response 404, db)
    | some lesson =>
      if lesson.teacher != user.id then (ViewResult.response 403, db)
      else
        match assocId with
        | some aid =>
          if db.lessonsExercises.any (fun le =>
              le.lesson == lessonId && le.id == aid) then
            let db1 :=
              { db with
                lessonsExercises :=
                  db.lessonsExercises.filter (fun le => le.id != aid) }
            let db2 := update_lesson_stats db1 lessonId
            (ViewResult.response 204,
             setLessonCount db2 lessonId (lessonRows db2 lessonId).length)
          else (ViewResult.response 404, db)
        | none =>
          (ViewResult.response 204,
           setLessonCount db lessonId (lessonRows db lessonId).length)

/-- The copy loop of `CreateExerciseFromPairsView.post`: for each selected
source pair a fresh `ExerciseMatchOptions` row with the same kanji and
answer is created under the new container; the source rows are not
modified. -/
def copyPairs (db : DB) (exId : Nat) :
    List ExerciseMatchOptions → DB
  | [] => db
  | p :: rest =>
    copyPairs
      { db with
        exerciseMatchOptions :=
          db.exerciseMatchOptions
            ++ [⟨nextId (db.exerciseMatchOptions.map (fun o => o.id)),
                 exId, p.kanji, p.answer⟩] }
      exId rest

/-- `CreateExerciseFromPairsView.post` (views.py): teacher check, at least
two pair ids, all ids must resolve to option rows, then a fresh container
is created and the selected pairs are copied into it. -/
def createExerciseFromPairsPost (db : DB) (user : User)
    (pair_ids : List Nat) (jlpt_level : Nat) : ViewResult × DB :=
  if !user.is_teacher then (ViewResult.response 403, db)
  else if pair_ids.length < 2 then (ViewResult.response 400, db)
  else
    let selected := db.exerciseMatchOptions.filter (fun o => pair_ids.contains o.id)
    if selected.length != pair_ids.length then (ViewResult.response 400, db)
    else
      let exId := nextId (db.exerciseMatch.map (fun m => m.id))
      (ViewResult.response 201,
       copyPairs
         { db with exerciseMatch := db.exerciseMatch ++ [⟨exId, jlpt_level⟩] }
         exId selected)

/-- The option rows a given match container owns. -/
def pairsOf (db : DB) (matchId : Nat) : List ExerciseMatchOptions :=
  db.exerciseMatchOptions.filter (fun o => o.exercise_match == matchId)

/-- A teacher account. -/
def teacher1 : User := ⟨1, true⟩

/-- An empty store. -/
def db0 : DB := ⟨[], [], [], [], [], [], []⟩

/-- Store with one lesson and no association rows. -/
def db_empty : DB := ⟨[], [], [], [], [], [⟨1, 1, "L", "mixed", "1-5", 7⟩], []⟩

/-- Store with one lesson whose single association row references a
freetext exercise that does not exist. -/
def db_dangling : DB :=
  ⟨[], [], [], [], [], [⟨1, 1, "L", "mixed", "1-5", 0⟩], [⟨1, 1, 99, "freetext"⟩]⟩

/-- Store with one lesson whose three association rows resolve to freetext
exercises of jlpt levels 2, 3 and 5. -/
def db_levels : DB :=
  ⟨[⟨10, "q1", "a1", 2⟩, ⟨11, "q2", "a2", 3⟩, ⟨12, "q3", "a3", 5⟩],
   [], [], [], [],
   [⟨1, 1, "L", "mixed", "1-5", 0⟩],
   [⟨1, 1, 10, "freetext"⟩, ⟨2, 1, 11, "freetext"⟩, ⟨3, 1, 12, "freetext"⟩]⟩

/-- Store with one freetext exercise referenced by the association rows of
two different lessons. -/
def db_shared : DB :=
  ⟨[⟨7, "q", "a", 3⟩], [], [], [], [],
   [⟨1, 1, "L1", "freetext", "3", 1⟩, ⟨2, 1, "L2", "freetext", "3", 1⟩],
   [⟨1, 1, 7, "freetext"⟩, ⟨2, 2, 7, "freetext"⟩]⟩

/-- Store holding one library pair (a single-pair match container). -/
def db_fire : DB :=
  ⟨[], [], [], [⟨1, 5⟩], [⟨1, 1, "火", "fire"⟩], [], []⟩

/-- Store with one lesson that already holds the association triple
`(lesson 1, exercise 5, freetext)`. -/
def db_assoc : DB :=
  ⟨[⟨5, "q", "a", 3⟩], [], [], [], [],
   [⟨1, 1, "L", "freetext", "3", 1⟩],
   [⟨1, 1, 5, "freetext"⟩]⟩

/-- Store with one lesson owned by `teacher1`, no association rows, and a
consistent `exercise_count` of 0. -/
def db_lesson0 : DB :=
  ⟨[], [], [], [], [], [⟨1, 1, "L", "empty", "unknown", 0⟩], []⟩

/-- Store holding two library pairs to build an exercise from. -/
def db_pairs : DB :=
  ⟨[], [], [], [⟨1, 5⟩, ⟨2, 4⟩],
   [⟨1, 1, "火", "fire"⟩, ⟨2, 2, "水", "water"⟩], [], []⟩

/-! ## Helper lemmas -/

theorem foldl_max_init_le (a : Nat) (l : List Nat) : a ≤ l.foldl Nat.max a := by
  induction l generalizing a with
  | nil => exact Nat.le_refl a
  | cons x xs ih => exact Nat.le_trans (Nat.le_max_left a x) (ih (Nat.max a x))

theorem mem_le_foldl_max (l : List Nat) (a x : Nat) (hx : x ∈ l) :
    x ≤ l.foldl Nat.max a := by
  induction l generalizing a with
  | nil => cases hx
  | cons y ys ih =>
    rcases List.mem_cons.mp hx with h | h
    · subst h
      exact Nat.le_trans (Nat.le_max_right a x) (foldl_max_init_le (Nat.max a x) ys)
    · exact ih (Nat.max a y) h

theorem nextId_not_mem (ids : List Nat) : nextId ids ∉ ids := by
  intro h
  have := mem_le_foldl_max ids 0 (nextId ids) h
  unfold nextId at this
  omega

theorem foldl_max_mem (a : Nat) (l : List Nat) : l.foldl Nat.max a ∈ a :: l := by
  induction l generalizing a with
  | nil => simp
  | cons x xs ih =>
    simp only [List.foldl_cons]
    rcases List.mem_cons.mp (ih (Nat.max a x)) with h1 | h1
    · rcases Nat.le_total a x with hax | hax
      · have hm : Nat.max a x = x := Nat.max_eq_right hax
        exact List.mem_cons.mpr (Or.inr
          (List.mem_cons.mpr (Or.inl (h1.trans hm))))
      · have hm : Nat.max a x = a := Nat.max_eq_left hax
        exact List.mem_cons.mpr (Or.inl (h1.trans hm))
    · exact List.mem_cons_of_mem _ (List.mem_cons_of_mem _ h1)

theorem foldl_min_init_le (a : Nat) (l : List Nat) : l.foldl Nat.min a ≤ a := by
  induction l generalizing a with
  | nil => exact Nat.le_refl a
  | cons x xs ih => exact Nat.le_trans (ih (Nat.min a x)) (Nat.min_le_left a x)

theorem foldl_min_le_mem (l : List Nat) (a x : Nat) (hx : x ∈ l) :
    l.foldl Nat.min a ≤ x := by
  induction l generalizing a with
  | nil => cases hx
  | cons y ys ih =>
    rcases List.mem_cons.mp hx with h | h
    · subst h
      exact Nat.le_trans (foldl_min_init_le (Nat.min a x) ys) (Nat.min_le_right a x)
    · exact ih (Nat.min a y) h

theorem foldl_min_mem (a : Nat) (l : List Nat) : l.foldl Nat.min a ∈ a :: l := by
  induction l generalizing a with
  | nil => simp
  | cons x xs ih =>
    simp only [List.foldl_cons]
    rcases List.mem_cons.mp (ih (Nat.min a x)) with h1 | h1
    · rcases Nat.le_total a x with hax | hax
      · have hm : Nat.min a x = a := Nat.min_eq_left hax
        exact List.mem_cons.mpr (Or.inl (h1.trans hm))
      · have hm : Nat.min a x = x := Nat.min_eq_right hax
        exact List.mem_cons.mpr (Or.inr
          (List.mem_cons.mpr (Or.inl (h1.trans hm))))
    · exact List.mem_cons_of_mem _ (List.mem_cons_of_mem _ h1)

theorem minList_mem (l : List Nat) (h : l ≠ []) : minList l ∈ l := by
  cases l with
  | nil => exact absurd rfl h
  | cons x xs => exact foldl_min_mem x xs

theorem minList_le (l : List Nat) (x : Nat) (hx : x ∈ l) : minList l ≤ x := by
  cases l with
  | nil => cases hx
  | cons y ys =>
    rcases List.mem_cons.mp hx with h | h
    · subst h; exact foldl_min_init_le x ys
    · exact foldl_min_le_mem ys y x h

theorem maxList_mem (l : List Nat) (h : l ≠ []) : maxList l ∈ l := by
  cases l with
  | nil => exact absurd rfl h
  | cons x xs => exact foldl_max_mem x xs

theorem le_maxList (l : List Nat) (x : Nat) (hx : x ∈ l) : x ≤ maxList l := by
  cases l with
  | nil => cases hx
  | cons y ys =>
    rcases List.mem_cons.mp hx with h | h
    · subst h; exact foldl_max_init_le x ys
    · exact mem_le_foldl_max ys y x h

theorem minList_perm (l1 l2 : List Nat) (h : l1.Perm l2) :
    minList l1 = minList l2 := by
  cases l1 with
  | nil =>
    have : l2 = [] := (h.nil_eq).symm
    rw [this]
  | cons x xs =>
    have h2 : l2 ≠ [] := by
      intro he
      rw [he] at h
      exact absurd h.symm.nil_eq (by simp)
    apply Nat.le_antisymm
    · exact minList_le _ _ (h.mem_iff.mpr (minList_mem l2 h2))
    · exact minList_le _ _ (h.mem_iff.mp (minList_mem _ (by simp)))

theorem maxList_perm (l1 l2 : List Nat) (h : l1.Perm l2) :
    maxList l1 = maxList l2 := by
  cases l1 with
  | nil =>
    have : l2 = [] := (h.nil_eq).symm
    rw [this]
  | cons x xs =>
    have h2 : l2 ≠ [] := by
      intro he
      rw [he] at h
      exact absurd h.symm.nil_eq (by simp)
    apply Nat.le_antisymm
    · exact le_maxList _ _ (h.mem_iff.mp (maxList_mem _ (by simp)))
    · exact le_maxList _ _ (h.mem_iff.mpr (maxList_mem l2 h2))

theorem nodup_all_eq {α : Type} (l : List α) (t : α) (hn : l.Nodup) (hm : t ∈ l)
    (h : ∀ x ∈ l, x = t) : l = [t] := by
  cases l with
  | nil => cases hm
  | cons a as =>
    have ha : a = t := h a (List.mem_cons_self _ _)
    cases as with
    | nil => rw [ha]
    | cons b bs =>
      exfalso
      have hb : b = t := h b (by simp)
      have : a ∉ b :: bs := (List.nodup_cons.mp hn).1
      exact this (by rw [ha, hb]; exact List.mem_cons_self _ _)

theorem dedup_eq_single {α : Type} [DecidableEq α] (l : List α) (t : α)
    (h1 : t ∈ l) (h2 : ∀ x ∈ l, x = t) : l.dedup = [t] := by
  refine nodup_all_eq _ _ (List.nodup_dedup l) (List.mem_dedup.mpr h1) ?_
  intro x hx
  exact h2 x (List.mem_dedup.mp hx)

theorem find_update_lessons (ls : List Lesson) (i : Nat) (f : Lesson → Lesson)
    (hf : ∀ l, (f l).id = l.id) :
    (ls.map (fun l => if l.id == i then f l else l)).find? (fun l => l.id == i)
      = (ls.find? (fun l => l.id == i)).map f := by
  induction ls with
  | nil => rfl
  | cons a as ih =>
    by_cases h : a.id = i
    · have hb : (a.id == i) = true := beq_iff_eq.mpr h
      have hfb : ((f a).id == i) = true := beq_iff_eq.mpr ((hf a).trans h)
      simp only [List.map_cons, hb, if_true]
      have e1 : List.find? (fun l => l.id == i)
          (f a :: (as.map (fun l => if l.id == i then f l else l)))
            = some (f a) := List.find?_cons_of_pos _ hfb
      have e2 : List.find? (fun l => l.id == i) (a :: as) = some a :=
        List.find?_cons_of_pos _ hb
      rw [e1, e2]
      rfl
    · have hb : (a.id == i) = false := beq_eq_false_iff_ne.mpr h
      simp only [List.map_cons, hb, Bool.false_eq_true, if_false]
      have e1 : List.find? (fun l => l.id == i)
          (a :: (as.map (fun l => if l.id == i then f l else l)))
            = List.find? (fun l => l.id == i)
                (as.map (fun l => if l.id == i then f l else l)) :=
        List.find?_cons_of_neg _ (by simp [hb])
      have e2 : List.find? (fun l => l.id == i) (a :: as)
          = List.find? (fun l => l.id == i) as :=
        List.find?_cons_of_neg _ (by simp [hb])
      rw [e1, e2]
      exact ih

theorem getLesson_setLessonStats (db : DB) (i : Nat) (t j : String) (c : Nat) :
    getLesson (setLessonStats db i t j c) i
      = (getLesson db i).map (fun l =>
          { l with lesson_type := t, jlpt_level := j, exercise_count := c }) := by
  unfold getLesson setLessonStats
  exact find_update_lessons db.lessons i _ (fun l => rfl)

theorem getLesson_setLessonCount (db : DB) (i : Nat) (c : Nat) :
    getLesson (setLessonCount db i c) i
      = (getLesson db i).map (fun l => { l with exercise_count := c }) := by
  unfold getLesson setLessonCount
  exact find_update_lessons db.lessons i _ (fun l => rfl)

theorem update_lesson_stats_shape (db : DB) (i : Nat) :
    ∃ t j c, update_lesson_stats db i = setLessonStats db i t j c := by
  unfold update_lesson_stats
  dsimp only
  split
  · exact ⟨_, _, _, rfl⟩
  · exact ⟨_, _, _, rfl⟩

theorem setLessonStats_frame (db : DB) (i : Nat) (t j : String) (c : Nat) :
    (setLessonStats db i t j c).lessonsExercises = db.lessonsExercises
      ∧ (setLessonStats db i t j c).exerciseFreetext = db.exerciseFreetext
      ∧ (setLessonStats db i t j c).exerciseMultiChoice = db.exerciseMultiChoice
      ∧ (setLessonStats db i t j c).exerciseMultiChoiceOptions
          = db.exerciseMultiChoiceOptions
      ∧ (setLessonStats db i t j c).exerciseMatch = db.exerciseMatch
      ∧ (setLessonStats db i t j c).exerciseMatchOptions = db.exerciseMatchOptions :=
  ⟨rfl, rfl, rfl, rfl, rfl, rfl⟩

theorem update_lesson_stats_lessonsExercises (db : DB) (i : Nat) :
    (update_lesson_stats db i).lessonsExercises = db.lessonsExercises := by
  obtain ⟨t, j, c, h⟩ := update_lesson_stats_shape db i
  rw [h]
  rfl

theorem lessonRows_update_lesson_stats (db : DB) (i j : Nat) :
    lessonRows (update_lesson_stats db i) j = lessonRows db j := by
  unfold lessonRows
  rw [update_lesson_stats_lessonsExercises]

/-- C2: for a lesson with zero association rows, the recompute sets
lesson_type to "empty", jlpt_level to "unknown" and exercise_count to 0,
leaving the lesson's identity untouched (the early-return branch). -/
theorem update_lesson_stats_empty_lesson (db : DB) (lessonId : Nat)
    (l0 : Lesson) (hl : getLesson db lessonId = some l0)
    (hrows : lessonRows db lessonId = []) :
    getLesson (update_lesson_stats db lessonId) lessonId
      = some { l0 with
               lesson_type := "empty", jlpt_level := "unknown",
               exercise_count := 0 } := by
  unfold update_lesson_stats
  dsimp only
  rw [hrows]
  simp only [List.isEmpty_nil, if_true]
  rw [getLesson_setLessonStats, hl]
  rfl

/-- Witness for C2 at a concrete store. -/
theorem update_lesson_stats_empty_lesson_witness :
    getLesson (update_lesson_stats db_empty 1) 1
      = some ⟨1, 1, "L", "empty", "unknown", 0⟩ :=
  update_lesson_stats_empty_lesson db_empty 1 ⟨1, 1, "L", "mixed", "1-5", 7⟩
    rfl rfl

theorem update_lesson_stats_nonempty_eq (db : DB) (lessonId : Nat)
    (h : lessonRows db lessonId ≠ []) :
    update_lesson_stats db lessonId
      = setLessonStats db lessonId
          (match ((lessonRows db lessonId).map (fun le => le.exercise_type)).dedup with
           | [t] => t
           | _ => "mixed")
          (jlptString ((lessonRows db lessonId).filterMap (resolveLevel db)))
          (lessonRows db lessonId).length := by
  unfold update_lesson_stats
  dsimp only
  rw [if_neg (by simp [List.isEmpty_iff, h])]

/-- C3: the derived jlpt_level is "unknown" on an empty level collection,
the single level as text when all collected levels agree, and the
"min-max" string otherwise, invariant under reordering of the collection;
concretely, the lesson of `db_levels` spanning levels {2,3,5} gets "2-5". -/
theorem jlpt_level_derivation :
    jlptString [] = "unknown"
    ∧ (∀ (l : List Nat) (n : Nat), l ≠ [] → (∀ x ∈ l, x = n) →
        jlptString l = toString n)
    ∧ (∀ l1 l2 : List Nat, l1.Perm l2 → jlptString l1 = jlptString l2)
    ∧ (∀ l : List Nat, l ≠ [] → ¬(∀ x ∈ l, ∀ y ∈ l, x = y) →
        jlptString l = toString (minList l) ++ "-" ++ toString (maxList l))
    ∧ (getLesson (update_lesson_stats db_levels 1) 1).map
        (fun l => l.jlpt_level) = some "2-5" := by
  refine ⟨rfl, ?_, ?_, ?_, ?_⟩
  · intro l n hne hall
    have hmn : minList l = n := hall _ (minList_mem l hne)
    have hmx : maxList l = n := hall _ (maxList_mem l hne)
    have hie : l.isEmpty = false := by
      cases l with
      | nil => exact absurd rfl hne
      | cons a as => rfl
    simp only [jlptString, hie, Bool.false_eq_true, if_false, hmn, hmx,
      beq_self_eq_true, if_true]
  · intro l1 l2 h
    have hm : minList l1 = minList l2 := minList_perm l1 l2 h
    have hx : maxList l1 = maxList l2 := maxList_perm l1 l2 h
    have hie : l1.isEmpty = l2.isEmpty := by
      cases l1 with
      | nil => rw [← h.nil_eq]
      | cons a as =>
        cases l2 with
        | nil => exact absurd h.symm.nil_eq (by simp)
        | cons b bs => rfl
    simp only [jlptString, hm, hx, hie]
  · intro l hne hneq
    have hie : l.isEmpty = false := by
      cases l with
      | nil => exact absurd rfl hne
      | cons a as => rfl
    have hmm : (minList l == maxList l) = false := by
      refine beq_eq_false_iff_ne.mpr ?_
      intro he
      apply hneq
      intro x hx y hy
      have h1 := minList_le l x hx
      have h2 := le_maxList l x hx
      have h3 := minList_le l y hy
      have h4 := le_maxList l y hy
      omega
    simp only [jlptString, hie, Bool.false_eq_true, if_false, hmm]
  · rfl

/-- Witness for C3: order of the collected levels does not matter, and an
all-equal collection renders as the single level. -/
theorem jlpt_level_derivation_witness :
    jlptString [5, 2] = jlptString [2, 5] ∧ jlptString [3, 3, 3] = "3" :=
  ⟨jlpt_level_derivation.2.2.1 [5, 2] [2, 5] (by decide),
   jlpt_level_derivation.2.1 [3, 3, 3] 3 (by decide) (by decide)⟩

/-- C1 (amended): for a lesson with at least one association row,
exercise_count is the total row count, but the type classification ranges
over the `exercise_type` of EVERY row — a row whose referenced exercise
does not resolve still contributes its type, and no library-pair exclusion
is applied — while the level collection holds exactly the levels of the
rows whose referenced exercise resolves in the store named by its type;
lesson_type is the single type when all rows agree and "mixed" otherwise. -/
theorem update_lesson_stats_nonempty (db : DB) (lessonId : Nat) (l0 : Lesson)
    (hl : getLesson db lessonId = some l0)
    (hrows : lessonRows db lessonId ≠ []) :
    (getLesson (update_lesson_stats db lessonId) lessonId).map
        (fun l => l.exercise_count) = some (lessonRows db lessonId).length
    ∧ (∀ t, (∀ le ∈ lessonRows db lessonId, le.exercise_type = t) →
        (getLesson (update_lesson_stats db lessonId) lessonId).map
          (fun l => l.lesson_type) = some t)
    ∧ ((∃ le1 ∈ lessonRows db lessonId, ∃ le2 ∈ lessonRows db lessonId,
          le1.exercise_type ≠ le2.exercise_type) →
        (getLesson (update_lesson_stats db lessonId) lessonId).map
          (fun l => l.lesson_type) = some "mixed")
    ∧ (getLesson (update_lesson_stats db lessonId) lessonId).map
        (fun l => l.jlpt_level)
        = some (jlptString
            ((lessonRows db lessonId).filterMap (resolveLevel db)))
    ∧ (∀ n, n ∈ (lessonRows db lessonId).filterMap (resolveLevel db)
        ↔ ∃ le ∈ lessonRows db lessonId, resolveLevel db le = some n) := by
  rw [update_lesson_stats_nonempty_eq db lessonId hrows,
    getLesson_setLessonStats, hl]
  refine ⟨rfl, ?_, ?_, rfl, ?_⟩
  · intro t hall
    obtain ⟨le0, hle0⟩ := List.exists_mem_of_ne_nil (lessonRows db lessonId) hrows
    have hdd : ((lessonRows db lessonId).map
        (fun le => le.exercise_type)).dedup = [t] := by
      refine dedup_eq_single _ t ?_ ?_
      · exact List.mem_map.mpr ⟨le0, hle0, hall le0 hle0⟩
      · intro x hx
        obtain ⟨le, hle, hx'⟩ := List.mem_map.mp hx
        rw [← hx']
        exact hall le hle
    rw [hdd]
    rfl
  · rintro ⟨le1, hle1, le2, hle2, hne⟩
    have hd :
        (match ((lessonRows db lessonId).map
            (fun le => le.exercise_type)).dedup with
         | [t] => t
         | _ => "mixed") = "mixed" := by
      rcases hdd : ((lessonRows db lessonId).map
          (fun le => le.exercise_type)).dedup with _ | ⟨t, _ | ⟨u, ts⟩⟩
      · rw [hdd]
      · exfalso
        have h1 : le1.exercise_type = t := by
          have : le1.exercise_type ∈ [t] := by
            rw [← hdd]
            exact List.mem_dedup.mpr (List.mem_map.mpr ⟨le1, hle1, rfl⟩)
          simpa using this
        have h2 : le2.exercise_type = t := by
          have : le2.exercise_type ∈ [t] := by
            rw [← hdd]
            exact List.mem_dedup.mpr (List.mem_map.mpr ⟨le2, hle2, rfl⟩)
          simpa using this
        exact hne (h1.trans h2.symm)
      · rw [hdd]
    rw [hd]
    rfl
  · intro n
    constructor
    · intro hn
      obtain ⟨le, hle, he⟩ := List.mem_filterMap.mp hn
      exact ⟨le, hle, he⟩
    · rintro ⟨le, hle, he⟩
      exact List.mem_filterMap.mpr ⟨le, hle, he⟩

/-- Witness for C1's amended statement: in `db_dangling` the single
association row references a missing exercise, yet it still fixes the
lesson's type as "freetext" and the level collection stays empty. -/
theorem update_lesson_stats_nonempty_witness :
    (getLesson (update_lesson_stats db_dangling 1) 1).map
        (fun l => l.exercise_count) = some 1
    ∧ (getLesson (update_lesson_stats db_dangling 1) 1).map
        (fun l => l.lesson_type) = some "freetext"
    ∧ (getLesson (update_lesson_stats db_dangling 1) 1).map
        (fun l => l.jlpt_level) = some "unknown" := by
  have h := update_lesson_stats_nonempty db_dangling 1
    ⟨1, 1, "L", "mixed", "1-5", 0⟩ rfl (by decide)
  refine ⟨h.1, h.2.1 "freetext" (by decide), ?_⟩
  have h4 := h.2.2.2.1
  rw [h4]
  rfl

/-- Counterexample to C1 as stated: the claim excludes a row whose
resolution fails from the type set, which would leave `db_dangling`'s
lesson with an empty type set and hence lesson_type "mixed"; the code
classifies it "freetext". -/
theorem update_lesson_stats_dangling_type :
    (getLesson (update_lesson_stats db_dangling 1) 1).map
        (fun l => l.lesson_type) = some "freetext"
      ∧ some "freetext" ≠ some "mixed" := by
  exact ⟨rfl, by decide⟩

/-- C4 (amended): deleting an ExerciseFreetext removes only the freetext
row itself — every LessonsExercises row (in particular the ones
referencing the deleted exercise) and every lesson row with its derived
fields is left untouched, no recomputation runs, and the operation
reports 204 without raising. -/
theorem exerciseFreetextDetailDelete_frame (db : DB) (user : User) (pk : Nat)
    (ht : user.is_teacher = true)
    (he : (db.exerciseFreetext.find? (fun e => e.id == pk)).isSome = true) :
    (exerciseFreetextDetailDelete db user pk).1 = ViewResult.response 204
    ∧ (exerciseFreetextDetailDelete db user pk).2.lessonsExercises
        = db.lessonsExercises
    ∧ (exerciseFreetextDetailDelete db user pk).2.lessons = db.lessons
    ∧ pk ∉ (exerciseFreetextDetailDelete db user pk).2.exerciseFreetext.map
        (fun e => e.id) := by
  obtain ⟨e, hfe⟩ := Option.isSome_iff_exists.mp he
  have hres : exerciseFreetextDetailDelete db user pk
      = (ViewResult.response 204,
         { db with
           exerciseFreetext :=
             db.exerciseFreetext.filter (fun e => e.id != pk) }) := by
    simp [exerciseFreetextDetailDelete, ht, hfe]
  rw [hres]
  refine ⟨rfl, rfl, rfl, ?_⟩
  intro hmem
  obtain ⟨x, hx, hid⟩ := List.mem_map.mp hmem
  have hxf := List.mem_filter.mp hx
  rw [hid] at hxf
  simp at hxf

/-- Witness for C4's amended statement: deleting freetext exercise 7,
which two lessons reference, leaves both association rows and both
lessons in place and succeeds with 204. -/
theorem exerciseFreetextDetailDelete_frame_witness :
    (exerciseFreetextDetailDelete db_shared teacher1 7).1
        = ViewResult.response 204
    ∧ (exerciseFreetextDetailDelete db_shared teacher1 7).2.lessonsExercises
        = db_shared.lessonsExercises
    ∧ (exerciseFreetextDetailDelete db_shared teacher1 7).2.lessons
        = db_shared.lessons
    ∧ 7 ∉ (exerciseFreetextDetailDelete db_shared teacher1 7).2.exerciseFreetext.map
        (fun e => e.id) :=
  exerciseFreetextDetailDelete_frame db_shared teacher1 7 rfl rfl

/-- Counterexample to C4 as stated: after deleting freetext exercise 7 in
`db_shared`, where two lessons reference it, both association rows are
still present (the claim says every such row is removed) and both
lessons' derived fields are exactly as before (the claim says both are
recomputed — a recompute of lesson 1 would have set its jlpt_level to
"unknown", since its only row no longer resolves). -/
theorem exerciseFreetextDetailDelete_no_cascade :
    ((exerciseFreetextDetailDelete db_shared teacher1 7).2.lessonsExercises.filter
        (fun le => le.exercise_id == 7 && le.exercise_type == "freetext")).length = 2
    ∧ (getLesson (exerciseFreetextDetailDelete db_shared teacher1 7).2 1).map
        (fun l => l.jlpt_level) = some "3"
    ∧ (getLesson (update_lesson_stats
          (exerciseFreetextDetailDelete db_shared teacher1 7).2 1) 1).map
        (fun l => l.jlpt_level) = some "unknown" := by
  decide

theorem saveMatchPairs_valid (pairs : List (String × String)) :
    ∀ (db : DB) (exId : Nat), (∀ p ∈ pairs, p.1 ≠ "" ∧ p.2 ≠ "") →
      (saveMatchPairs db exId pairs).1 = ViewResult.response 201 := by
  induction pairs with
  | nil => intro db exId _; rfl
  | cons p rest ih =>
    intro db exId h
    obtain ⟨k, a⟩ := p
    obtain ⟨h1, h2⟩ := h (k, a) (List.mem_cons_self _ _)
    have hb : (k == "" || a == "") = false := by
      simp only [Bool.or_eq_false_iff, beq_eq_false_iff_ne]
      exact ⟨h1, h2⟩
    simp only [saveMatchPairs, hb, Bool.false_eq_true, if_false]
    exact ih _ exId (fun q hq => h q (List.mem_cons_of_mem _ hq))

/-- C5 (amended): library pair creation rejects a submission exactly when
an existing library pair matches it in the SAME direction,
case-insensitively, and stores nothing in that case; a submission with no
same-direction library duplicate is created even if a reverse-direction
duplicate exists.  Direct exercise creation applies no duplicate check at
all: two or more well-formed pairs are always accepted. -/
theorem pair_creation_duplicate_policy (db : DB) (user : User)
    (kanji answer : String) (jlpt : Nat)
    (ht : user.is_teacher = true) (hk : kanji ≠ "") (ha : answer ≠ "") :
    (libraryDupExists db kanji answer = true →
      pairLibraryPost db user kanji answer jlpt = (ViewResult.response 400, db))
    ∧ (libraryDupExists db kanji answer = false →
      (pairLibraryPost db user kanji answer jlpt).1 = ViewResult.response 201)
    ∧ (∀ (db2 : DB) (jl : Nat) (pairs : List (String × String)),
        2 ≤ pairs.length → (∀ p ∈ pairs, p.1 ≠ "" ∧ p.2 ≠ "") →
        (exerciseMatchPost db2 jl pairs).1 = ViewResult.response 201) := by
  have hkb : (kanji == "") = false := beq_eq_false_iff_ne.mpr hk
  have hab : (answer == "") = false := beq_eq_false_iff_ne.mpr ha
  refine ⟨?_, ?_, ?_⟩
  · intro hdup
    unfold pairLibraryPost
    rw [ht, hdup]
    simp only [Bool.not_true, Bool.false_eq_true, if_false, hkb, hab,
      Bool.or_self, if_true]
  · intro hdup
    unfold pairLibraryPost
    rw [ht, hdup]
    simp only [Bool.not_true, Bool.false_eq_true, if_false, hkb, hab,
      Bool.or_self]
  · intro db2 jl pairs hlen hvalid
    unfold exerciseMatchPost
    rw [if_neg (by omega)]
    exact saveMatchPairs_valid pairs _ _ hvalid

/-- Witness for C5's amended statement: a same-direction duplicate of the
stored library pair ("火","fire") is rejected with nothing stored, and
direct creation of a two-pair exercise succeeds. -/
theorem pair_creation_duplicate_policy_witness :
    pairLibraryPost db_fire teacher1 "火" "FIRE" 5 = (ViewResult.response 400, db_fire)
    ∧ (exerciseMatchPost db_fire 5 [("火", "fire"), ("水", "water")]).1
        = ViewResult.response 201 := by
  have h := pair_creation_duplicate_policy db_fire teacher1 "火" "FIRE" 5
    rfl (by decide) (by decide)
  exact ⟨h.1 (by decide), h.2.2 db_fire 5 [("火", "fire"), ("水", "water")]
    (by decide) (by decide)⟩

/-- Counterexample to C5 as stated: with the library pair ("火","fire")
stored, submitting the reverse direction ("fire","火") is NOT rejected as
a duplicate — the creation succeeds and a second pair row is stored. -/
theorem pairLibraryPost_reverse_accepted :
    (pairLibraryPost db_fire teacher1 "fire" "火" 5).1 = ViewResult.response 201
    ∧ (pairLibraryPost db_fire teacher1 "fire" "火" 5).2.exerciseMatchOptions.length = 2
    ∧ ViewResult.response 201 ≠ ViewResult.response 400 := by
  decide

theorem deleteQuestionCascade_fresh (db : DB) (q : ExerciseMultiChoice)
    (hq : ∀ x ∈ db.exerciseMultiChoice, x.id ≠ q.id)
    (ho : ∀ o ∈ db.exerciseMultiChoiceOptions, o.exercise_mc ≠ q.id) :
    deleteQuestionCascade
      { db with exerciseMultiChoice := db.exerciseMultiChoice ++ [q] } q.id
      = db := by
  have h1 : (db.exerciseMultiChoice ++ [q]).filter (fun x => x.id != q.id)
      = db.exerciseMultiChoice := by
    rw [List.filter_append]
    have h1a : [q].filter (fun x => x.id != q.id) = [] := by simp
    have h1b : db.exerciseMultiChoice.filter (fun x => x.id != q.id)
        = db.exerciseMultiChoice :=
      List.filter_eq_self.mpr (fun a ha => by simpa using hq a ha)
    rw [h1a, h1b, List.append_nil]
  have h2 : db.exerciseMultiChoiceOptions.filter (fun o => o.exercise_mc != q.id)
      = db.exerciseMultiChoiceOptions :=
    List.filter_eq_self.mpr (fun a ha => by simpa using ho a ha)
  unfold deleteQuestionCascade
  cases db
  simp only at h1 h2
  simp only [h1, h2]

theorem saveMCOptions_fail_restores (opts : List MCOptionInput) :
    ∀ (dbAcc : DB) (qid : Nat) (db0 : DB),
      deleteQuestionCascade dbAcc qid = db0 →
      (saveMCOptions dbAcc qid opts).1 ≠ ViewResult.response 201 →
      (saveMCOptions dbAcc qid opts).2 = db0 := by
  induction opts with
  | nil => intro dbAcc qid db0 _ hne; exact absurd rfl hne
  | cons o rest ih =>
    intro dbAcc qid db0 hc hne
    by_cases hv : o.answer = ""
    · have hb : (o.answer == "") = true := beq_iff_eq.mpr hv
      simp only [saveMCOptions, hb, if_true]
      exact hc
    · have hb : (o.answer == "") = false := beq_eq_false_iff_ne.mpr hv
      simp only [saveMCOptions, hb, Bool.false_eq_true, if_false] at hne ⊢
      refine ih _ qid db0 ?_ hne
      rw [← hc]
      unfold deleteQuestionCascade
      simp [List.filter_append]

/-- C6: a MultiChoice creation whose options contain no correct option is
rejected with a validation error and the store is unchanged (the question
is not persisted); more generally, whenever the multi-step creation does
not succeed, the store it leaves behind equals the store it started from —
every row already written for the operation is deleted before the error
returns, so no partial write survives. -/
theorem exerciseMultiChoicePost_atomic (db : DB) (question : String)
    (jlpt_level : Option Nat) (options : List MCOptionInput)
    (hwf : ∀ o ∈ db.exerciseMultiChoiceOptions,
      o.exercise_mc ∈ db.exerciseMultiChoice.map (fun q => q.id)) :
    (options.all (fun o => !o.is_correct) = true →
      exerciseMultiChoicePost db question jlpt_level options
        = (ViewResult.response 400, db))
    ∧ (∀ r db2, exerciseMultiChoicePost db question jlpt_level options = (r, db2) →
        r ≠ ViewResult.response 201 → db2 = db) := by
  constructor
  · intro hall
    unfold exerciseMultiChoicePost
    split
    · rfl
    · split
      · rfl
      · have hany : options.any (fun o => o.is_correct) = false := by
          rw [List.any_eq_false]
          intro o hoo
          have := List.all_eq_true.mp hall o hoo
          simpa using this
        rw [if_pos (by rw [hany]; rfl)]
  · intro r db2 heq hne
    unfold exerciseMultiChoicePost at heq
    split at heq
    · rw [Prod.mk.injEq] at heq
      exact heq.2.symm
    · split at heq
      · rw [Prod.mk.injEq] at heq
        exact heq.2.symm
      · split at heq
        · rw [Prod.mk.injEq] at heq
          exact heq.2.symm
        · set qid := nextId (db.exerciseMultiChoice.map (fun q => q.id)) with hqid
          have hfresh : qid ∉ db.exerciseMultiChoice.map (fun q => q.id) :=
            nextId_not_mem _
          have hq : ∀ x ∈ db.exerciseMultiChoice,
              x.id ≠ (⟨qid, question, jlpt_level.getD 0⟩ : ExerciseMultiChoice).id := by
            intro x hx he
            exact hfresh (List.mem_map.mpr ⟨x, hx, he⟩)
          have ho : ∀ o ∈ db.exerciseMultiChoiceOptions,
              o.exercise_mc ≠ (⟨qid, question, jlpt_level.getD 0⟩ : ExerciseMultiChoice).id := by
            intro o hoo he
            have := hwf o hoo
            rw [he] at this
            exact hfresh this
          have hclean := deleteQuestionCascade_fresh db
            ⟨qid, question, jlpt_level.getD 0⟩ hq ho
          have := saveMCOptions_fail_restores options
            { db with exerciseMultiChoice := db.exerciseMultiChoice ++ [⟨qid, question, jlpt_level.getD 0⟩] }
            qid db hclean (by rw [heq]; exact hne)
          rw [heq] at this
          exact this

/-- Witness for C6: a single-option submission with no correct option is
rejected and the empty store is unchanged; an aborted creation (invalid
second option) also leaves the store unchanged. -/
theorem exerciseMultiChoicePost_atomic_witness :
    exerciseMultiChoicePost db0 "Q" (some 3) [⟨"A", false⟩]
      = (ViewResult.response 400, db0)
    ∧ (exerciseMultiChoicePost db0 "Q" (some 3) [⟨"A", true⟩, ⟨"", false⟩]).2
      = db0 := by
  have h1 := exerciseMultiChoicePost_atomic db0 "Q" (some 3) [⟨"A", false⟩]
    (by intro o ho; cases ho)
  have h2 := exerciseMultiChoicePost_atomic db0 "Q" (some 3)
    [⟨"A", true⟩, ⟨"", false⟩] (by intro o ho; cases ho)
  refine ⟨h1.1 (by decide), ?_⟩
  exact h2.2 (exerciseMultiChoicePost db0 "Q" (some 3)
      [⟨"A", true⟩, ⟨"", false⟩]).1
    (exerciseMultiChoicePost db0 "Q" (some 3) [⟨"A", true⟩, ⟨"", false⟩]).2
    rfl (by decide)

/-- C7 (amended): inserting an association triple the lesson already holds
is refused by the storage uniqueness constraint — the store, and with it
the association set, is unchanged — but the refusal surfaces as an
uncaught IntegrityError propagating out of the view, not as a
distinguishable ConflictError response. -/
theorem lessonExercisesPost_duplicate (db : DB) (user : User)
    (lessonId eid : Nat) (etype : String) (lesson : Lesson)
    (ht : user.is_teacher = true)
    (hl : getLesson db lessonId = some lesson)
    (hown : lesson.teacher = user.id)
    (hdup : tripleExists db lessonId eid etype = true) :
    lessonExercisesPost db user lessonId [(eid, etype)]
      = (ViewResult.integrityError, db) := by
  unfold lessonExercisesPost
  rw [ht, hl]
  simp only [Bool.not_true, Bool.false_eq_true, if_false]
  rw [if_neg (by simp [hown])]
  unfold insertLessonExercises
  rw [hdup]
  rfl

/-- Witness for C7's amended statement at a concrete duplicate insertion. -/
theorem lessonExercisesPost_duplicate_witness :
    lessonExercisesPost db_assoc teacher1 1 [(5, "freetext")]
      = (ViewResult.integrityError, db_assoc) :=
  lessonExercisesPost_duplicate db_assoc teacher1 1 5 "freetext"
    ⟨1, 1, "L", "freetext", "3", 1⟩ rfl rfl rfl (by decide)

/-- Counterexample to C7 as stated: the duplicate insertion produces no
response at all — in particular no distinguishable conflict response such
as 409 — the view raises an uncaught IntegrityError, leaving the store
unchanged. -/
theorem lessonExercisesPost_duplicate_uncaught :
    (lessonExercisesPost db_assoc teacher1 1 [(5, "freetext")]).1
        = ViewResult.integrityError
    ∧ ViewResult.integrityError ≠ ViewResult.response 409
    ∧ (lessonExercisesPost db_assoc teacher1 1 [(5, "freetext")]).2 = db_assoc := by
  decide

theorem getLesson_after_update_and_count (db : DB) (lid : Nat) (c : Nat)
    (l0 : Lesson) (hl : getLesson db lid = some l0) :
    ∃ l, getLesson (setLessonCount (update_lesson_stats db lid) lid c) lid
        = some l
      ∧ l.teacher = l0.teacher ∧ l.id = l0.id ∧ l.exercise_count = c := by
  obtain ⟨t, j, cc, hsh⟩ := update_lesson_stats_shape db lid
  rw [hsh, getLesson_setLessonCount, getLesson_setLessonStats, hl]
  exact ⟨_, rfl, rfl, rfl, rfl⟩

theorem lessonExercisesPost_single (db : DB) (user : User) (lessonId eid : Nat)
    (etype : String) (l0 : Lesson)
    (ht : user.is_teacher = true)
    (hl : getLesson db lessonId = some l0)
    (hown : l0.teacher = user.id)
    (hnodup : tripleExists db lessonId eid etype = false) :
    lessonExercisesPost db user lessonId [(eid, etype)]
      = (ViewResult.response 201,
         setLessonCount
           (update_lesson_stats
             { db with
               lessonsExercises := db.lessonsExercises
                 ++ [⟨nextId (db.lessonsExercises.map (fun le => le.id)),
                      lessonId, eid, etype⟩] }
             lessonId)
           lessonId ((lessonRows db lessonId).length + 1)) := by
  unfold lessonExercisesPost
  rw [ht, hl]
  simp only [Bool.not_true, Bool.false_eq_true, if_false]
  rw [if_neg (by simp [hown])]
  unfold insertLessonExercises
  rw [hnodup]
  simp only [Bool.false_eq_true, if_false]
  unfold insertLessonExercises
  have hr : lessonRows
      (update_lesson_stats
        { db with
          lessonsExercises := db.lessonsExercises
            ++ [⟨nextId (db.lessonsExercises.map (fun le => le.id)),
                 lessonId, eid, etype⟩] }
        lessonId)
      lessonId
      = lessonRows db lessonId
        ++ [⟨nextId (db.lessonsExercises.map (fun le => le.id)),
             lessonId, eid, etype⟩] := by
    rw [lessonRows_update_lesson_stats]
    unfold lessonRows
    rw [List.filter_append]
    simp
  rw [hr, List.length_append]
  rfl

/-- C10: adding an exercise entry to an owned lesson performs no existence
check on the referenced exercise — there is no hypothesis about `eid`
resolving anywhere; the association row is created, the view reports 201,
and the stored exercise_count grows by one. -/
theorem lessonExercisesPost_no_existence_check (db : DB) (user : User)
    (lessonId eid : Nat) (etype : String) (l0 : Lesson)
    (ht : user.is_teacher = true)
    (hl : getLesson db lessonId = some l0)
    (hown : l0.teacher = user.id)
    (hnodup : tripleExists db lessonId eid etype = false)
    (hc : l0.exercise_count = (lessonRows db lessonId).length) :
    (lessonExercisesPost db user lessonId [(eid, etype)]).1
        = ViewResult.response 201
    ∧ (⟨nextId (db.lessonsExercises.map (fun le => le.id)),
        lessonId, eid, etype⟩ : LessonsExercises)
        ∈ (lessonExercisesPost db user lessonId [(eid, etype)]).2.lessonsExercises
    ∧ (getLesson (lessonExercisesPost db user lessonId [(eid, etype)]).2
        lessonId).map (fun l => l.exercise_count)
        = some (l0.exercise_count + 1) := by
  rw [lessonExercisesPost_single db user lessonId eid etype l0 ht hl hown hnodup]
  have hl1 : getLesson
      { db with
        lessonsExercises := db.lessonsExercises
          ++ [⟨nextId (db.lessonsExercises.map (fun le => le.id)),
               lessonId, eid, etype⟩] }
      lessonId = some l0 := hl
  obtain ⟨l, hgl, _, _, hcnt⟩ := getLesson_after_update_and_count _ lessonId
    ((lessonRows db lessonId).length + 1) l0 hl1
  refine ⟨rfl, ?_, ?_⟩
  · show _ ∈ (setLessonCount (update_lesson_stats _ _) _ _).lessonsExercises
    have hpres : (setLessonCount
        (update_lesson_stats
          { db with
            lessonsExercises := db.lessonsExercises
              ++ [⟨nextId (db.lessonsExercises.map (fun le => le.id)),
                   lessonId, eid, etype⟩] }
          lessonId)
        lessonId ((lessonRows db lessonId).length + 1)).lessonsExercises
        = db.lessonsExercises
          ++ [⟨nextId (db.lessonsExercises.map (fun le => le.id)),
               lessonId, eid, etype⟩] := by
      show (update_lesson_stats _ _).lessonsExercises = _
      rw [update_lesson_stats_lessonsExercises]
    rw [hpres]
    exact List.mem_append_right _ (List.mem_cons_self _ _)
  · rw [hgl]
    simp [hcnt, hc]

/-- Witness for C10: exercise id 42 exists in no store of `db_lesson0`,
yet the entry `(42, "freetext")` is accepted with 201 and the count
becomes 1. -/
theorem lessonExercisesPost_no_existence_check_witness :
    (lessonExercisesPost db_lesson0 teacher1 1 [(42, "freetext")]).1
        = ViewResult.response 201
    ∧ (⟨1, 1, 42, "freetext"⟩ : LessonsExercises)
        ∈ (lessonExercisesPost db_lesson0 teacher1 1 [(42, "freetext")]).2.lessonsExercises
    ∧ (getLesson (lessonExercisesPost db_lesson0 teacher1 1 [(42, "freetext")]).2
        1).map (fun l => l.exercise_count) = some 1 :=
  lessonExercisesPost_no_existence_check db_lesson0 teacher1 1 42 "freetext"
    ⟨1, 1, "L", "empty", "unknown", 0⟩ rfl rfl rfl (by decide) rfl

theorem lessonExercisesDelete_found (db : DB) (user : User)
    (lessonId aid : Nat) (l1 : Lesson)
    (ht : user.is_teacher = true)
    (hl : getLesson db lessonId = some l1)
    (hown : l1.teacher = user.id)
    (hfound : db.lessonsExercises.any
      (fun le => le.lesson == lessonId && le.id == aid) = true) :
    lessonExercisesDelete db user lessonId (some aid)
      = (ViewResult.response 204,
         setLessonCount
           (update_lesson_stats
             { db with
               lessonsExercises :=
                 db.lessonsExercises.filter (fun le => le.id != aid) }
             lessonId)
           lessonId
           (lessonRows
             (update_lesson_stats
               { db with
                 lessonsExercises :=
                   db.lessonsExercises.filter (fun le => le.id != aid) }
               lessonId)
             lessonId).length) := by
  unfold lessonExercisesDelete
  rw [ht, hl]
  simp only [Bool.not_true, Bool.false_eq_true, if_false]
  rw [if_neg (by simp [hown]), if_pos hfound]

/-- C8: adding a not-yet-associated (exercise_id, type) entry to an owned
lesson whose stored exercise_count agrees with its association rows, and
then removing the created association row, reports 204 and restores the
stored exercise_count to its value before the addition. -/
theorem lesson_add_remove_roundtrip (db : DB) (user : User)
    (lessonId eid : Nat) (etype : String) (l0 : Lesson)
    (ht : user.is_teacher = true)
    (hl : getLesson db lessonId = some l0)
    (hown : l0.teacher = user.id)
    (hnodup : tripleExists db lessonId eid etype = false)
    (hc : l0.exercise_count = (lessonRows db lessonId).length) :
    (lessonExercisesDelete
        (lessonExercisesPost db user lessonId [(eid, etype)]).2
        user lessonId
        (some (nextId (db.lessonsExercises.map (fun le => le.id))))).1
      = ViewResult.response 204
    ∧ (getLesson
        (lessonExercisesDelete
          (lessonExercisesPost db user lessonId [(eid, etype)]).2
          user lessonId
          (some (nextId (db.lessonsExercises.map (fun le => le.id))))).2
        lessonId).map (fun l => l.exercise_count)
      = some l0.exercise_count := by
  rw [lessonExercisesPost_single db user lessonId eid etype l0 ht hl hown hnodup]
  set rid := nextId (db.lessonsExercises.map (fun le => le.id)) with hrid
  set row : LessonsExercises := ⟨rid, lessonId, eid, etype⟩ with hrow
  set dbIns : DB :=
    { db with lessonsExercises := db.lessonsExercises ++ [row] } with hdbIns
  set db1 : DB :=
    setLessonCount (update_lesson_stats dbIns lessonId) lessonId
      ((lessonRows db lessonId).length + 1) with hdb1
  have hlIns : getLesson dbIns lessonId = some l0 := hl
  obtain ⟨l1, hgl1, hte1, _, _⟩ := getLesson_after_update_and_count dbIns
    lessonId ((lessonRows db lessonId).length + 1) l0 hlIns
  have hrows1 : db1.lessonsExercises = db.lessonsExercises ++ [row] := by
    rw [hdb1]
    show (update_lesson_stats dbIns lessonId).lessonsExercises = _
    rw [update_lesson_stats_lessonsExercises]
  have hfound : db1.lessonsExercises.any
      (fun le => le.lesson == lessonId && le.id == rid) = true := by
    rw [hrows1]
    rw [List.any_append]
    have : [row].any (fun le => le.lesson == lessonId && le.id == rid) = true := by
      rw [hrow]
      simp
    rw [this, Bool.or_true]
  have hdel := lessonExercisesDelete_found db1 user lessonId rid l1 ht hgl1
    (hte1.trans hown) hfound
  rw [hdel]
  set db2a : DB :=
    { db1 with
      lessonsExercises := db1.lessonsExercises.filter (fun le => le.id != rid) }
    with hdb2a
  have hfilter : db1.lessonsExercises.filter (fun le => le.id != rid)
      = db.lessonsExercises := by
    rw [hrows1, List.filter_append]
    have h1 : [row].filter (fun le => le.id != rid) = [] := by
      rw [hrow]
      simp
    have h2 : db.lessonsExercises.filter (fun le => le.id != rid)
        = db.lessonsExercises := by
      refine List.filter_eq_self.mpr (fun a ha => ?_)
      simp only [bne_iff_ne, ne_eq]
      intro heq
      exact nextId_not_mem _ (List.mem_map.mpr ⟨a, ha, heq⟩)
    rw [h1, h2, List.append_nil]
  have hl2a : getLesson db2a lessonId = some l1 := hgl1
  obtain ⟨l2, hgl2, _, _, hcnt2⟩ := getLesson_after_update_and_count db2a
    lessonId (lessonRows (update_lesson_stats db2a lessonId) lessonId).length
    l1 hl2a
  have hrows2 : lessonRows (update_lesson_stats db2a lessonId) lessonId
      = lessonRows db lessonId := by
    rw [lessonRows_update_lesson_stats]
    show db2a.lessonsExercises.filter (fun le => le.lesson == lessonId) = _
    rw [hdb2a]
    show (db1.lessonsExercises.filter (fun le => le.id != rid)).filter _ = _
    rw [hfilter]
    rfl
  refine ⟨rfl, ?_⟩
  rw [hgl2]
  simp only [Option.map_some']
  rw [hcnt2, hrows2, hc]

/-- Witness for C8 at a concrete store: count 0, add `(42, "freetext")`,
remove the created row, count 0 again. -/
theorem lesson_add_remove_roundtrip_witness :
    (lessonExercisesDelete
        (lessonExercisesPost db_lesson0 teacher1 1 [(42, "freetext")]).2
        teacher1 1 (some 1)).1 = ViewResult.response 204
    ∧ (getLesson
        (lessonExercisesDelete
          (lessonExercisesPost db_lesson0 teacher1 1 [(42, "freetext")]).2
          teacher1 1 (some 1)).2
        1).map (fun l => l.exercise_count) = some 0 :=
  lesson_add_remove_roundtrip db_lesson0 teacher1 1 42 "freetext"
    ⟨1, 1, "L", "empty", "unknown", 0⟩ rfl rfl rfl (by decide) rfl

theorem copyPairs_preserves (ps : List ExerciseMatchOptions) :
    ∀ (db : DB) (exId : Nat),
      (copyPairs db exId ps).exerciseMatch = db.exerciseMatch
      ∧ (∀ o ∈ db.exerciseMatchOptions,
          o ∈ (copyPairs db exId ps).exerciseMatchOptions)
      ∧ (∀ i, i ≠ exId → pairsOf (copyPairs db exId ps) i = pairsOf db i) := by
  induction ps with
  | nil => intro db exId; exact ⟨rfl, fun o ho => ho, fun i _ => rfl⟩
  | cons p rest ih =>
    intro db exId
    obtain ⟨ha, hb, hc⟩ := ih
      { db with
        exerciseMatchOptions :=
          db.exerciseMatchOptions
            ++ [⟨nextId (db.exerciseMatchOptions.map (fun o => o.id)),
                 exId, p.kanji, p.answer⟩] }
      exId
    refine ⟨ha, ?_, ?_⟩
    · intro o ho
      exact hb o (List.mem_append_left _ ho)
    · intro i hi
      show pairsOf (copyPairs
        { db with
          exerciseMatchOptions :=
            db.exerciseMatchOptions
              ++ [⟨nextId (db.exerciseMatchOptions.map (fun o => o.id)),
                   exId, p.kanji, p.answer⟩] }
        exId rest) i = pairsOf db i
      rw [hc i hi]
      unfold pairsOf
      show (db.exerciseMatchOptions ++ [_]).filter _ = _
      rw [List.filter_append]
      have hnew : ([(⟨nextId (db.exerciseMatchOptions.map (fun o => o.id)),
          exId, p.kanji, p.answer⟩ : ExerciseMatchOptions)]).filter
            (fun o => o.exercise_match == i) = [] := by
        simp [Ne.symm hi]
      rw [hnew, List.append_nil]

/-- C9: creating an exercise from existing pairs copies, never moves — the
response is 201, every preexisting option row and every preexisting match
container is still present unchanged, and the pair set owned by each
preexisting container (in particular each source library pair's) is
exactly what it was before. -/
theorem createExerciseFromPairs_copies (db : DB) (user : User)
    (pair_ids : List Nat) (jlpt : Nat)
    (ht : user.is_teacher = true)
    (hlen : 2 ≤ pair_ids.length)
    (hfound : (db.exerciseMatchOptions.filter
      (fun o => pair_ids.contains o.id)).length = pair_ids.length) :
    (createExerciseFromPairsPost db user pair_ids jlpt).1
        = ViewResult.response 201
    ∧ (∀ m ∈ db.exerciseMatch,
        m ∈ (createExerciseFromPairsPost db user pair_ids jlpt).2.exerciseMatch)
    ∧ (∀ o ∈ db.exerciseMatchOptions,
        o ∈ (createExerciseFromPairsPost db user pair_ids jlpt).2.exerciseMatchOptions)
    ∧ (∀ m ∈ db.exerciseMatch,
        pairsOf (createExerciseFromPairsPost db user pair_ids jlpt).2 m.id
          = pairsOf db m.id) := by
  have hres : createExerciseFromPairsPost db user pair_ids jlpt
      = (ViewResult.response 201,
         copyPairs
           { db with
             exerciseMatch := db.exerciseMatch
               ++ [⟨nextId (db.exerciseMatch.map (fun m => m.id)), jlpt⟩] }
           (nextId (db.exerciseMatch.map (fun m => m.id)))
           (db.exerciseMatchOptions.filter (fun o => pair_ids.contains o.id))) := by
    unfold createExerciseFromPairsPost
    rw [ht]
    simp only [Bool.not_true, Bool.false_eq_true, if_false]
    rw [if_neg (by omega)]
    rw [if_neg (fun hcon => absurd hfound (bne_iff_ne.mp hcon))]
  rw [hres]
  obtain ⟨ha, hb, hc⟩ := copyPairs_preserves
    (db.exerciseMatchOptions.filter (fun o => pair_ids.contains o.id))
    { db with
      exerciseMatch := db.exerciseMatch
        ++ [⟨nextId (db.exerciseMatch.map (fun m => m.id)), jlpt⟩] }
    (nextId (db.exerciseMatch.map (fun m => m.id)))
  refine ⟨rfl, ?_, ?_, ?_⟩
  · intro m hm
    show m ∈ (copyPairs _ _ _).exerciseMatch
    rw [ha]
    exact List.mem_append_left _ hm
  · intro o ho
    exact hb o ho
  · intro m hm
    have hne : m.id ≠ nextId (db.exerciseMatch.map (fun mm => mm.id)) := by
      intro he
      exact nextId_not_mem _ (List.mem_map.mpr ⟨m, hm, he⟩)
    rw [hc m.id hne]
    rfl

/-- Witness for C9: building an exercise from the two library pairs of
`db_pairs` returns 201, keeps the source pair ("火","fire") stored, and
leaves container 1 owning exactly its original single pair. -/
theorem createExerciseFromPairs_copies_witness :
    (createExerciseFromPairsPost db_pairs teacher1 [1, 2] 5).1
        = ViewResult.response 201
    ∧ (⟨1, 1, "火", "fire"⟩ : ExerciseMatchOptions)
        ∈ (createExerciseFromPairsPost db_pairs teacher1 [1, 2] 5).2.exerciseMatchOptions
    ∧ pairsOf (createExerciseFromPairsPost db_pairs teacher1 [1, 2] 5).2 1
        = pairsOf db_pairs 1 := by
  have h := createExerciseFromPairs_copies db_pairs teacher1 [1, 2] 5
    rfl (by decide) (by decide)
  exact ⟨h.1, h.2.2.1 ⟨1, 1, "火", "fire"⟩ (by decide),
    h.2.2.2 ⟨1, 5⟩ (by decide)⟩
